import Mathlib

/-!
Verification development for the codeslayer RFP-automation repository.

The embedding models:
* Python dict values (`Val`, `PyDict`) with `d[k]` raising `KeyError` and
  `d.get(k, default)`;
* the pricing agent (`process_products`, `process_tests`,
  `build_output_json`, `run_pricing_agent`);
* the technical agent's similarity search (`search_cables`);
* the query extraction helper and the eight LangGraph nodes of
  `unified_workflow.py`, with the external collaborators (scraper, LLM
  summarizer, embedding search, spreadsheet load, file writes) supplied as an
  `Ext` record of fallible functions.

Machine floats are modelled as rationals; floating-point rendering inside
f-strings is abstracted by `valStr` (no claim depends on the rendered text).
-/

namespace Codeslayer

/-- Python values that flow through the repository's dicts: `None`, strings,
numbers (ints and floats, modelled as rationals), lists, and dicts
(insertion-ordered key/value lists). -/
inductive Val where
  | none : Val
  | str : String → Val
  | num : ℚ → Val
  | list : List Val → Val
  | dict : List (String × Val) → Val

/-- A Python dict: insertion-ordered association list. -/
abbrev PyDict := List (String × Val)

/-- Python `d[k]`: the binding for `k`, or a `KeyError` whose message is the
quoted key (as `str(KeyError(k))` renders it). -/
def dget (d : PyDict) (k : String) : Except String Val :=
  match d.find? (fun kv => kv.1 == k) with
  | Option.some kv => Except.ok kv.2
  | Option.none => Except.error ("'" ++ k ++ "'")

/-- Python `d.get(k, dflt)`. -/
def pyGetD (d : PyDict) (k : String) (dflt : Val) : Val :=
  match d.find? (fun kv => kv.1 == k) with
  | Option.some kv => kv.2
  | Option.none => dflt

/-- Python `k in d` for dicts. -/
def hasKey (d : PyDict) (k : String) : Bool :=
  d.any (fun kv => kv.1 == k)

/-- Python dict update: assigning key `k` (used for the `**`-merge in the
response node). -/
def pySet (d : PyDict) (k : String) (v : Val) : PyDict :=
  d.filter (fun kv => kv.1 != k) ++ [(k, v)]

/-- Using a `Val` where a number is required (Python would raise `TypeError`
at the arithmetic/comparison). -/
def asNum : Val → Except String ℚ
  | .num q => Except.ok q
  | _ => Except.error "TypeError: a number is required"

/-- Using a `Val` where a list is required (iteration over a non-iterable
raises `TypeError`). -/
def asList : Val → Except String (List Val)
  | .list l => Except.ok l
  | _ => Except.error "TypeError: object is not iterable"

/-- Using a `Val` where a dict is required (subscripting a non-dict raises
`TypeError`). -/
def asDict : Val → Except String PyDict
  | .dict d => Except.ok d
  | _ => Except.error "TypeError: object is not subscriptable"

/-- Using a `Val` where a string is required (calling `.lower()` on a
non-string raises `AttributeError`). -/
def asStr : Val → Except String String
  | .str s => Except.ok s
  | _ => Except.error "AttributeError: object has no attribute lower"

/-- Rendering a `Val` inside an f-string.  Numeric rendering is abstracted
(Python float formatting is not modelled); no claim depends on this text. -/
def valStr : Val → String
  | .none => "None"
  | .str s => s
  | .num q => toString q.num ++ (if q.den == 1 then "" else "/" ++ toString q.den)
  | .list _ => "<list>"
  | .dict _ => "<dict>"

/-! ## Pricing agent: `pricing_agent/product_processor.py` -/

/-- One row of the `Product_Prices` sheet of `Pricing_Data_FMCG.xlsx`
(columns read by `process_products`).  `SKU_ID` is a string column. -/
structure ProductRow where
  sku_id : String
  product_name : String
  base_price : ℚ
  unit : String
  product_type : String

/-- One row of the `Test_Prices` sheet (columns read by `process_tests`). -/
structure TestRow where
  test_name : String
  test_type : String
  unit_cost : ℚ
  duration_days : Int

/-- `product_df.loc[product_df["SKU_ID"] == sku]` followed by `.values[0]`:
the first row whose `SKU_ID` equals `sku`; comparing a non-string against the
string column matches nothing. -/
def skuLookup (df : List ProductRow) : Val → Option ProductRow
  | .str s => df.find? (fun row => row.sku_id == s)
  | _ => Option.none

/-- Loop state of the `for rec in recommended` loop inside `process_products`:
the growing `recommended_pricing` list, `best_match` and `highest_spec`. -/
structure RecAcc where
  pricing : List PyDict
  best : Option (Val × ℚ)
  highest : ℚ

/-- The `for rec in recommended` loop of `process_products`: each candidate is
read (`rec["sku"]`, `rec["spec_match"]`), resolved against the catalog (a miss
is skipped), its pricing entry appended, and the best match updated on a
strictly greater spec-match score.  The numeric check on `spec_match` is
surfaced at read time; Python would raise the `TypeError` at the comparison
with `highest_spec`, and no claim depends on that ordering. -/
def procRecs (df : List ProductRow) (quantity : ℚ) :
    List Val → RecAcc → Except String RecAcc
  | [], acc => Except.ok acc
  | r :: rs, acc => do
    let rd ← asDict r
    let skuV ← dget rd "sku"
    let specV ← dget rd "spec_match"
    let spec ← asNum specV
    match skuLookup df skuV with
    | Option.none => procRecs df quantity rs acc
    | Option.some row =>
      let total := row.base_price * quantity
      let entry : PyDict :=
        [("sku", skuV), ("spec_match", specV),
         ("product_name", Val.str row.product_name),
         ("base_price", Val.num row.base_price),
         ("unit", Val.str row.unit),
         ("product_type", Val.str row.product_type),
         ("total_price", Val.num total)]
      if acc.highest < spec then
        procRecs df quantity rs
          ⟨acc.pricing ++ [entry], Option.some (skuV, total), spec⟩
      else
        procRecs df quantity rs ⟨acc.pricing ++ [entry], acc.best, acc.highest⟩

/-- One iteration of the outer `for line in technical_table` loop of
`process_products`: the four key reads, the candidate loop (started from an
empty pricing list, no best match, `highest_spec = -1`), and the conditional
`included_sku` / `included_total_price` keys.  Returns the line entry and the
line's contribution to `total_material_cost` (zero when unresolved). -/
def procLine (df : List ProductRow) (line : PyDict) :
    Except String (PyDict × ℚ) := do
  let lineId ← dget line "line_id"
  let scopeItem ← dget line "scope_item"
  let quantityV ← dget line "quantity"
  let quantity ← asNum quantityV
  let recsV ← dget line "recommended"
  let recs ← asList recsV
  let acc ← procRecs df quantity recs ⟨[], Option.none, -1⟩
  let baseEntry : PyDict :=
    [("line_id", lineId), ("scope_item", scopeItem), ("quantity", quantityV),
     ("recommended_pricing", Val.list (acc.pricing.map Val.dict))]
  match acc.best with
  | Option.some (skuV, total) =>
    Except.ok (baseEntry ++
      [("included_sku", skuV), ("included_total_price", Val.num total)], total)
  | Option.none => Except.ok (baseEntry, 0)

/-- Accumulating form of `process_products`: `pricing_table` grows by
appending and `total_material_cost` accumulates left-to-right. -/
def processProductsAux (df : List ProductRow) :
    List PyDict → List PyDict → ℚ → Except String (List PyDict × ℚ)
  | [], tbl, total => Except.ok (tbl, total)
  | line :: rest, tbl, total => do
    let (entry, contrib) ← procLine df line
    processProductsAux df rest (tbl ++ [entry]) (total + contrib)

/-- `process_products(technical_table, product_df)` from
`pricing_agent/product_processor.py`. -/
def process_products (df : List ProductRow) (technical_table : List PyDict) :
    Except String (List PyDict × ℚ) :=
  processProductsAux df technical_table [] 0

/-- A well-formed recommended candidate, the shape the pricing agent's input
documents: an SKU string and a numeric spec-match score. -/
structure Cand where
  sku : String
  spec_match : ℚ

/-- The Python dict carrying a well-formed candidate. -/
def encCand (c : Cand) : Val :=
  Val.dict [("sku", Val.str c.sku), ("spec_match", Val.num c.spec_match)]

/-- The Python dict carrying a well-formed technical-table line. -/
def encLine (lineId scopeItem : Val) (quantity : ℚ) (cands : List Cand) :
    PyDict :=
  [("line_id", lineId), ("scope_item", scopeItem),
   ("quantity", Val.num quantity),
   ("recommended", Val.list (cands.map encCand))]

/-- Resolvability of a candidate against the product catalog. -/
def cRes (df : List ProductRow) (c : Cand) : Bool :=
  (skuLookup df (Val.str c.sku)).isSome

/-- The `included_total_price` a line entry carries (zero when the line is
unresolved and the key is absent). -/
def includedPrice (entry : PyDict) : ℚ :=
  match dget entry "included_total_price" with
  | Except.ok (Val.num x) => x
  | _ => 0

/-! ## Pricing agent: `pricing_agent/test_processor.py` -/

/-- `test_df.loc[test_df["Test_Name"] == test_name]`: the first matching
row. -/
def testLookup (df : List TestRow) (name : String) : Option TestRow :=
  df.find? (fun row => row.test_name == name)

/-- The matched-test info dict built by `process_tests`. -/
def testInfo (name : String) (row : TestRow) : PyDict :=
  [("test_name", Val.str name), ("test_type", Val.str row.test_type),
   ("unit_cost", Val.num row.unit_cost),
   ("duration_days", Val.num (row.duration_days : ℚ))]

/-- Accumulating loop of `process_tests`. -/
def processTestsAux (df : List TestRow) :
    List String → List PyDict → ℚ → List PyDict × ℚ
  | [], matched, total => (matched, total)
  | name :: rest, matched, total =>
    match testLookup df name with
    | Option.some row =>
      processTestsAux df rest (matched ++ [testInfo name row])
        (total + row.unit_cost)
    | Option.none => processTestsAux df rest matched total

/-- `process_tests(test_list, test_df)` from
`pricing_agent/test_processor.py`. -/
def process_tests (test_list : List String) (df : List TestRow) :
    List PyDict × ℚ :=
  processTestsAux df test_list [] 0

/-- The `unit_cost` a matched-test dict carries. -/
def testUnitCost (t : PyDict) : ℚ :=
  match dget t "unit_cost" with
  | Except.ok (Val.num x) => x
  | _ => 0

/-! ## Pricing agent: `pricing_aggregator.py` and `pricing_agent.py` -/

/-- `build_output_json` from `pricing_agent/pricing_aggregator.py`: the totals
are nested under `"summary"` and `overall_project_cost` is computed as
`total_material_cost + total_test_cost`. -/
def build_output_json (rfp_id : Val) (pricing_table : List PyDict)
    (matched_tests : List PyDict) (total_material_cost total_test_cost : ℚ) :
    PyDict :=
  [("rfp_id", rfp_id),
   ("pricing_table", Val.list (pricing_table.map Val.dict)),
   ("matched_tests", Val.list (matched_tests.map Val.dict)),
   ("summary", Val.dict
     [("total_material_cost", Val.num total_material_cost),
      ("total_test_cost", Val.num total_test_cost),
      ("overall_project_cost",
        Val.num (total_material_cost + total_test_cost))])]

/-- The input consumed by `run_pricing_agent` (built by the workflow's
pricing node or read from `data/sample_input.json`): `rfp_id`,
`technical_table`, and `rfp_summary["tests"]`. -/
structure PricingInput where
  rfp_id : Val
  technical_table : List PyDict
  tests : List String

/-- `run_pricing_agent(input_json)` from `pricing_agent/pricing_agent.py`.
The spreadsheet load (`load_reference_data`) and the output file write
(`save_output`) are external effects passed in as `load` and `saveRes`; either
may fail, and a failure propagates to the caller exactly as the corresponding
Python exception would. -/
def run_pricing_agent (load : Except String (List ProductRow × List TestRow))
    (saveRes : PyDict → Except String Unit) (input : PricingInput) :
    Except String PyDict := do
  let (product_df, test_df) ← load
  let (pricing_table, total_material_cost) ←
    process_products product_df input.technical_table
  let (matched_tests, total_test_cost) := process_tests input.tests test_df
  let final_output := build_output_json input.rfp_id pricing_table
    matched_tests total_material_cost total_test_cost
  let _ ← saveRes final_output
  Except.ok final_output

/-! ## Technical agent: `Technichal_Agent-main/query.py` -/

/-- Stable insertion of a scored record into a descending-sorted list: the new
element goes after every element with an equal or higher score.  Python's
`list.sort(key=lambda x: x[0], reverse=True)` is a stable descending sort,
which is exactly what repeated `insertDesc` produces. -/
def insertDesc (x : ℚ × PyDict) : List (ℚ × PyDict) → List (ℚ × PyDict)
  | [] => [x]
  | y :: ys => if y.1 < x.1 then x :: y :: ys else y :: insertDesc x ys

/-- Stable descending sort by score (`similarities.sort(key=lambda x: x[0],
reverse=True)`). -/
def sortDesc (l : List (ℚ × PyDict)) : List (ℚ × PyDict) :=
  l.foldl (fun acc x => insertDesc x acc) []

/-- `search_cables(query, top_k)` from `Technichal_Agent-main/query.py`.
`available` is the module-level `EMBEDDINGS_AVAILABLE` flag (false when the
sentence-transformers import fails: the function returns `[]`).  `records` is
`data["records"]` from the embeddings file; an empty list returns `[]`.
Records without an `"embedding"` key are skipped.  The cosine similarity of
the encoded query against a record's embedding is a fixed function of the
record once the query is fixed; it is abstracted as `score` (floats are not
modelled).  Results are sorted by score descending (stable) and truncated to
`top_k`. -/
def search_cables (available : Bool) (records : List PyDict)
    (score : PyDict → ℚ) (top_k : ℕ) : List (ℚ × PyDict) :=
  if !available then []
  else if records.isEmpty then []
  else
    let sims := (records.filter (fun r => hasKey r "embedding")).map
      (fun r => (score r, r))
    (sortDesc sims).take top_k

/-! ## Workflow helper: `_extract_product_requirements` -/

/-- Char-list version of `needle.isPrefixOf hay`. -/
def leadMatch : List Char → List Char → Bool
  | [], _ => true
  | _ :: _, [] => false
  | a :: as, b :: bs => a == b && leadMatch as bs

/-- Substring test on char lists (Python `needle in hay`). -/
def hasSub (n : List Char) : List Char → Bool
  | [] => leadMatch n []
  | b :: t => leadMatch n (b :: t) || hasSub n t

/-- Python `kw in s` for strings. -/
def strHasSub (hay kw : String) : Bool :=
  hasSub kw.toList hay.toList

/-- ASCII lowercasing of one character (`str.lower()` restricted to the ASCII
range, which covers the fixed keyword set and every input exercised here). -/
def charLower (c : Char) : Char :=
  if 'A' ≤ c && c ≤ 'Z' then Char.ofNat (c.toNat + 32) else c

/-- Python `description.lower()` (ASCII range). -/
def strLower (s : String) : String :=
  ⟨s.data.map charLower⟩

/-- The fixed keyword list of `_extract_product_requirements`. -/
def requirementKeywords : List String :=
  ["cable", "wire", "conductor", "power", "electrical", "voltage"]

/-- `_extract_product_requirements(description)` from `unified_workflow.py`:
three fixed queries when any keyword occurs in the lowercased description,
otherwise one generic query; the trailing `queries if queries else [...]`
guard is modelled as written (it is unreachable since `queries` is never
empty). -/
def extract_product_requirements (description : String) : List String :=
  let queries :=
    if requirementKeywords.any (fun kw => strHasSub (strLower description) kw) then
      ["high current rating cables for industrial use",
       "1.5 sq mm to 10 sq mm electrical cables",
       "heavy duty power cables with insulation"]
    else
      ["general purpose electrical cables"]
  if queries.isEmpty then ["electrical cables and wires"] else queries

/-- The queries the spec-match node actually searches: `queries[:5]`. -/
def lookupQueries (description : String) : List String :=
  (extract_product_requirements description).take 5

/-! ## Orchestrator: `unified_workflow.py` -/

/-- The state threaded through the LangGraph pipeline (`WorkflowState`).
Leads, records and pricing results are Python dicts; `final_package` starts
as the empty dict of the initial state. -/
structure WorkflowState where
  rfp_urls : List String
  all_rfps : List PyDict
  filtered_rfps : List PyDict
  summarized_rfps : List PyDict
  selected_rfp : PyDict
  product_requirements : List String
  spec_matches : List PyDict
  pricing_input : Option PricingInput
  pricing_result : PyDict
  draft_response : String
  final_package : PyDict
  current_stage : String
  errors : List String

/-- The external collaborators the nodes call, each of which may raise
(modelled as `Except.error` carrying `str(e)`): the scraper, the due-date
filter, the LLM summarizer, the best-RFP selector, the embedding search, the
pricing agent (spreadsheet load and file write included), the LLM drafter,
and the final-package file write.  `now` is `datetime.utcnow().isoformat()`. -/
structure Ext where
  scrape : List String → Except String (List PyDict)
  filterDue : List PyDict → Except String (List PyDict)
  summarize : List PyDict → Except String (List PyDict)
  selectBest : List PyDict → Except String PyDict
  search : String → Except String (List (ℚ × PyDict))
  runPricing : PricingInput → Except String PyDict
  draft : PyDict → Except String String
  save : PyDict → Except String Unit
  now : String

/-- Node 1, `scrape_rfps_node`: on failure append `"Scraping error: ..."` and
fall back to an empty list. -/
def scrape_rfps_node (ext : Ext) (s : WorkflowState) : WorkflowState :=
  let s1 := { s with current_stage := "scraping" }
  match ext.scrape s1.rfp_urls with
  | Except.ok rfps => { s1 with all_rfps := rfps }
  | Except.error e =>
    { s1 with
      errors := s1.errors ++ ["Scraping error: " ++ e]
      all_rfps := [] }

/-- Node 2, `filter_rfps_node`: on failure append `"Filtering error: ..."`
and pass the unfiltered list through. -/
def filter_rfps_node (ext : Ext) (s : WorkflowState) : WorkflowState :=
  let s1 := { s with current_stage := "filtering" }
  match ext.filterDue s1.all_rfps with
  | Except.ok filtered => { s1 with filtered_rfps := filtered }
  | Except.error e =>
    { s1 with
      errors := s1.errors ++ ["Filtering error: " ++ e]
      filtered_rfps := s1.all_rfps }

/-- Node 3, `summarize_rfps_node`: on failure append
`"Summarization error: ..."` and pass the filtered list through. -/
def summarize_rfps_node (ext : Ext) (s : WorkflowState) : WorkflowState :=
  let s1 := { s with current_stage := "summarizing" }
  match ext.summarize s1.filtered_rfps with
  | Except.ok summarized => { s1 with summarized_rfps := summarized }
  | Except.error e =>
    { s1 with
      errors := s1.errors ++ ["Summarization error: " ++ e]
      summarized_rfps := s1.filtered_rfps }

/-- Node 4, `select_best_rfp_node`: an empty list raises
`ValueError("No RFPs available for selection")` inside the guarded block; any
failure appends `"Selection error: ..."` and falls back to the first
summarized RFP (or the empty dict). -/
def select_best_rfp_node (ext : Ext) (s : WorkflowState) : WorkflowState :=
  let s1 := { s with current_stage := "selection" }
  let attempt : Except String PyDict :=
    if s1.summarized_rfps.isEmpty then
      Except.error "No RFPs available for selection"
    else ext.selectBest s1.summarized_rfps
  match attempt with
  | Except.ok sel => { s1 with selected_rfp := sel }
  | Except.error e =>
    { s1 with
      errors := s1.errors ++ ["Selection error: " ++ e]
      selected_rfp := s1.summarized_rfps.headD [] }

/-- The match dict built for each `(score, record)` pair in
`spec_match_node`. -/
def matchEntry (q : String) (score : ℚ) (record : PyDict) : PyDict :=
  [("query", Val.str q), ("match_score", Val.num score),
   ("product", Val.dict
     [("conductor_area_mm2", pyGetD record "conductor_nominal_area_mm2" Val.none),
      ("current_rating_amps", pyGetD record "current_rating_amps" Val.none),
      ("diameter_mm", pyGetD record "approx_overall_diameter_mm" Val.none),
      ("weight_kg_per_km", pyGetD record "overall_weight_kg_per_km" Val.none)]),
   ("recommendation", Val.str
     (valStr (pyGetD record "conductor_nominal_area_mm2" Val.none) ++
      " sq mm cable, " ++
      valStr (pyGetD record "current_rating_amps" Val.none) ++ " amps"))]

/-- The `for query in queries[:5]` loop of `spec_match_node`, flattening every
query's search results into `all_matches`; a raised search error aborts the
loop (and is caught at the node boundary). -/
def searchLoop (ext : Ext) : List String → Except String (List PyDict)
  | [] => Except.ok []
  | q :: qs => do
    let found ← ext.search q
    let rest ← searchLoop ext qs
    Except.ok (found.map (fun sr => matchEntry q sr.1 sr.2) ++ rest)

/-- Node 5, `spec_match_node`: extracts queries from the selected RFP's
description (set into `product_requirements` before the search loop runs, as
in the source), searches each of the first five queries, and on any failure
appends `"Spec matching error: ..."` and falls back to an empty match
list. -/
def spec_match_node (ext : Ext) (s : WorkflowState) : WorkflowState :=
  let s1 := { s with current_stage := "spec_matching" }
  match asStr (pyGetD s1.selected_rfp "description" (Val.str "")) with
  | Except.error e =>
    { s1 with
      errors := s1.errors ++ ["Spec matching error: " ++ e]
      spec_matches := [] }
  | Except.ok description =>
    let queries := extract_product_requirements description
    let s2 := { s1 with product_requirements := queries }
    match searchLoop ext (queries.take 5) with
    | Except.ok all_matches => { s2 with spec_matches := all_matches }
    | Except.error e =>
      { s2 with
        errors := s2.errors ++ ["Spec matching error: " ++ e]
        spec_matches := [] }

/-- One row of the `technical_table` built by `pricing_node` from a spec
match (1-based `item_no`, fixed quantity 1000). -/
def techRow (idx : ℕ) (m : PyDict) : PyDict :=
  [("item_no", Val.num (idx : ℚ)),
   ("description", pyGetD m "recommendation" (Val.str "Product")),
   ("specifications", pyGetD m "product" (Val.dict [])),
   ("quantity", Val.num 1000),
   ("match_score", pyGetD m "match_score" (Val.num 0))]

/-- `for idx, match in enumerate(spec_matches, 1)` building `techRow`s. -/
def techTableFrom (idx : ℕ) : List PyDict → List PyDict
  | [] => []
  | m :: rest => techRow idx m :: techTableFrom (idx + 1) rest

/-- `enumerate(spec_matches, 1)` mapped through `techRow`. -/
def techTable (spec_matches : List PyDict) : List PyDict :=
  techTableFrom 1 spec_matches

/-- The `pricing_input` dict assembled by `pricing_node`. -/
def buildPricingInput (s : WorkflowState) : PricingInput :=
  { rfp_id := pyGetD s.selected_rfp "title" (Val.str "Unknown"),
    technical_table := techTable s.spec_matches,
    tests := ["Quality Test", "Performance Test", "Safety Test"] }

/-- The fixed fallback pricing dict of `pricing_node`. -/
def fallbackPricing : PyDict :=
  [("total_material_cost", Val.num 50000), ("total_test_cost", Val.num 5000),
   ("grand_total", Val.num 55000), ("note", Val.str "Estimated pricing")]

/-- Node 6, `pricing_node`: builds the pricing input (stored into
`pricing_input` before the agent runs, as in the source), runs the pricing
agent, and on any failure appends `"Pricing error: ..."` and falls back to
the fixed estimate dict. -/
def pricing_node (ext : Ext) (s : WorkflowState) : WorkflowState :=
  let s1 := { s with current_stage := "pricing" }
  let inp := buildPricingInput s1
  let s2 := { s1 with pricing_input := Option.some inp }
  match ext.runPricing inp with
  | Except.ok result => { s2 with pricing_result := result }
  | Except.error e =>
    { s2 with
      errors := s2.errors ++ ["Pricing error: " ++ e]
      pricing_result := fallbackPricing }

/-- The enhanced lead built by `response_node`: the selected RFP plus
`spec_match_count` and `total_cost = pricing_result.get("grand_total", 0)`. -/
def enhancedLead (s : WorkflowState) : PyDict :=
  pySet
    (pySet s.selected_rfp "spec_match_count"
      (Val.num (s.spec_matches.length : ℚ)))
    "total_cost" (pyGetD s.pricing_result "grand_total" (Val.num 0))

/-- Node 7, `response_node`: drafts a response from the enhanced lead; on
failure appends `"Response generation error: ..."` and falls back to the
literal failure marker string. -/
def response_node (ext : Ext) (s : WorkflowState) : WorkflowState :=
  let s1 := { s with current_stage := "response_generation" }
  match ext.draft (enhancedLead s1) with
  | Except.ok response => { s1 with draft_response := response }
  | Except.error e =>
    { s1 with
      errors := s1.errors ++ ["Response generation error: " ++ e]
      draft_response := "Response generation failed" }

/-- The `final_package` dict assembled by `package_output_node`. -/
def buildFinalPackage (ext : Ext) (s : WorkflowState) : PyDict :=
  [("rfp_details", Val.dict
     [("title", pyGetD s.selected_rfp "title" Val.none),
      ("due_date", pyGetD s.selected_rfp "due_date" Val.none),
      ("source", pyGetD s.selected_rfp "link" Val.none),
      ("summary", pyGetD s.selected_rfp "summary" Val.none)]),
   ("spec_matches", Val.dict
     [("count", Val.num (s.spec_matches.length : ℚ)),
      ("products", Val.list (s.spec_matches.map Val.dict))]),
   ("pricing", Val.dict s.pricing_result),
   ("draft_response", Val.str s.draft_response),
   ("processing_summary", Val.dict
     [("total_rfps_scraped", Val.num (s.all_rfps.length : ℚ)),
      ("candidates_found", Val.num (s.filtered_rfps.length : ℚ)),
      ("products_matched", Val.num (s.spec_matches.length : ℚ)),
      ("errors", Val.list (s.errors.map Val.str)),
      ("generated_at", Val.str ext.now)])]

/-- Node 8, `package_output_node`.  Unlike every other node it has no
`try`/`except`: the state is updated (stage marker and `final_package`)
and then the package is written to `rfp_final_response.json`; a failing write
propagates out of the node, so the node returns `Except`. -/
def package_output_node (ext : Ext) (s : WorkflowState) :
    Except String WorkflowState :=
  let s1 := { s with current_stage := "completed" }
  let pkg := buildFinalPackage ext s1
  let s2 := { s1 with final_package := pkg }
  match ext.save pkg with
  | Except.ok _ => Except.ok s2
  | Except.error e => Except.error e

/-- The fixed linear stage order of the compiled LangGraph:
scrape → filter → summarize → select → spec-match → pricing → response →
package. -/
def runPipeline (ext : Ext) (s : WorkflowState) : Except String WorkflowState :=
  package_output_node ext
    (response_node ext
      (pricing_node ext
        (spec_match_node ext
          (select_best_rfp_node ext
            (summarize_rfps_node ext
              (filter_rfps_node ext
                (scrape_rfps_node ext s)))))))

/-- The `DEFAULT_URLS` list of `UnifiedRFPWorkflow`. -/
def DEFAULT_URLS : List String :=
  ["https://etenders.gov.in/eprocure/app", "https://tenders.gov.in",
   "https://gem.gov.in/tenders", "https://tenderwizard.com",
   "https://www.rfpdb.com", "https://www.findrfp.com",
   "https://www.globaltenders.com"]

/-- The `initial_state` dict built by `UnifiedRFPWorkflow.run` (with the
default URL list). -/
def initState : WorkflowState :=
  { rfp_urls := DEFAULT_URLS, all_rfps := [], filtered_rfps := [],
    summarized_rfps := [], selected_rfp := [], product_requirements := [],
    spec_matches := [], pricing_input := Option.none, pricing_result := [],
    draft_response := "", final_package := [], current_stage := "initialized",
    errors := [] }

/-- An `Ext` wiring the pricing node to the real `run_pricing_agent` over
empty catalogs; the other collaborators return trivial successes. -/
def extReal : Ext :=
  { scrape := fun _ => Except.ok []
    filterDue := fun _ => Except.ok []
    summarize := fun _ => Except.ok []
    selectBest := fun _ => Except.ok []
    search := fun _ => Except.ok []
    runPricing := run_pricing_agent (Except.ok ([], [])) (fun _ => Except.ok ())
    draft := fun _ => Except.ok ""
    save := fun _ => Except.ok ()
    now := "T" }

/-- An `Ext` whose every stage collaborator raises, but whose persistence
write succeeds. -/
def extAllFail : Ext :=
  { scrape := fun _ => Except.error "net down"
    filterDue := fun _ => Except.error "bad date"
    summarize := fun _ => Except.error "llm down"
    selectBest := fun _ => Except.error "llm down"
    search := fun _ => Except.error "no index"
    runPricing := fun _ => Except.error "'line_id'"
    draft := fun _ => Except.error "api error"
    save := fun _ => Except.ok ()
    now := "2026-10-12T00:00:00" }

/-- An `Ext` whose collaborators succeed trivially but whose final
persistence write fails. -/
def extSaveFails : Ext :=
  { scrape := fun _ => Except.ok []
    filterDue := fun _ => Except.ok []
    summarize := fun _ => Except.ok []
    selectBest := fun _ => Except.ok []
    search := fun _ => Except.ok []
    runPricing := fun _ => Except.ok []
    draft := fun _ => Except.ok ""
    save := fun _ => Except.error "disk full"
    now := "T" }

/-- The pricing entry a resolvable candidate contributes to
`recommended_pricing`. -/
def candEntry (c : Cand) (row : ProductRow) (q : ℚ) : PyDict :=
  [("sku", Val.str c.sku), ("spec_match", Val.num c.spec_match),
   ("product_name", Val.str row.product_name),
   ("base_price", Val.num row.base_price),
   ("unit", Val.str row.unit),
   ("product_type", Val.str row.product_type),
   ("total_price", Val.num (row.base_price * q))]

/-- The line entry before the optional `included_*` keys. -/
def lineBase (lineId scopeItem : Val) (q : ℚ) (pricing : List PyDict) :
    PyDict :=
  [("line_id", lineId), ("scope_item", scopeItem), ("quantity", Val.num q),
   ("recommended_pricing", Val.list (pricing.map Val.dict))]

/-- Concrete two-product catalog used by the tie-break and edge-case
scenarios. -/
def tieDf : List ProductRow :=
  [⟨"SKU-A", "ProdA", 10, "m", "cable"⟩, ⟨"SKU-B", "ProdB", 12, "m", "cable"⟩]

/-- Candidate A of the tie scenario: spec-match score 0.9. -/
def candA : Cand := ⟨"SKU-A", mkRat 9 10⟩

/-- Candidate B of the tie scenario: the same spec-match score 0.9. -/
def candB : Cand := ⟨"SKU-B", mkRat 9 10⟩

/-- The matched tests exactly as `process_tests` accumulates them: catalog
lookups that succeed, in input order; absent names contribute nothing. -/
def matchedTests (tests : List String) (df : List TestRow) : List PyDict :=
  tests.filterMap (fun n => (testLookup df n).map (testInfo n))

/-- Scenario record with identifier 5 (scores 0.9 for the tie query). -/
def recId5 : PyDict := [("id", Val.num 5), ("embedding", Val.list [])]

/-- Scenario record with identifier 2 (scores 0.9 for the tie query). -/
def recId2 : PyDict := [("id", Val.num 2), ("embedding", Val.list [])]

/-- Scenario record with identifier 7, marked so the scenario scoring
function gives it 0.4. -/
def recId7 : PyDict :=
  [("id", Val.num 7), ("lowsim", Val.none), ("embedding", Val.list [])]

/-- The scenario's similarity function: 0.4 for the marked record, 0.9 for
the others (the spec's similarity multiset 0.9, 0.9, 0.4). -/
def scoreTie (r : PyDict) : ℚ :=
  if hasKey r "lowsim" then mkRat 4 10 else mkRat 9 10

/-- A record carrying an embedding. -/
def recWithEmb : PyDict := [("id", Val.num 1), ("embedding", Val.list [])]

/-- A record with no `"embedding"` key: the search loop skips it. -/
def recNoEmb : PyDict := [("id", Val.num 2)]

/-! ## Helper lemmas -/

theorem procRecs_cons_enc (df : List ProductRow) (q : ℚ) (c : Cand)
    (vs : List Val) (acc : RecAcc) :
    procRecs df q (encCand c :: vs) acc =
      match skuLookup df (Val.str c.sku) with
      | Option.none => procRecs df q vs acc
      | Option.some row =>
        if acc.highest < c.spec_match then
          procRecs df q vs ⟨acc.pricing ++ [candEntry c row q],
            Option.some (Val.str c.sku, row.base_price * q), c.spec_match⟩
        else
          procRecs df q vs ⟨acc.pricing ++ [candEntry c row q], acc.best,
            acc.highest⟩ := rfl

theorem procRecs_cons_none (df : List ProductRow) (q : ℚ) (c : Cand)
    (vs : List Val) (acc : RecAcc)
    (h : skuLookup df (Val.str c.sku) = Option.none) :
    procRecs df q (encCand c :: vs) acc = procRecs df q vs acc := by
  have he := procRecs_cons_enc df q c vs acc
  rw [h] at he
  exact he

theorem procRecs_cons_some (df : List ProductRow) (q : ℚ) (c : Cand)
    (vs : List Val) (acc : RecAcc) (row : ProductRow)
    (h : skuLookup df (Val.str c.sku) = Option.some row) :
    procRecs df q (encCand c :: vs) acc =
      if acc.highest < c.spec_match then
        procRecs df q vs ⟨acc.pricing ++ [candEntry c row q],
          Option.some (Val.str c.sku, row.base_price * q), c.spec_match⟩
      else
        procRecs df q vs ⟨acc.pricing ++ [candEntry c row q], acc.best,
          acc.highest⟩ := by
  have he := procRecs_cons_enc df q c vs acc
  rw [h] at he
  exact he

theorem procRecs_skip_all (df : List ProductRow) (q : ℚ) :
    ∀ (cs : List Cand) (acc : RecAcc),
      (∀ c ∈ cs, cRes df c = false) →
      procRecs df q (cs.map encCand) acc = Except.ok acc := by
  intro cs
  induction cs with
  | nil => intro acc _; rfl
  | cons c cs ih =>
    intro acc h
    have hc : cRes df c = false := h c (List.mem_cons_self c cs)
    unfold cRes at hc
    cases hlk : skuLookup df (Val.str c.sku) with
    | none =>
      rw [List.map_cons, procRecs_cons_none df q c _ acc hlk]
      exact ih acc (fun d hd => h d (List.mem_cons_of_mem c hd))
    | some row => rw [hlk] at hc; simp [Option.isSome] at hc

theorem procRecs_keep (df : List ProductRow) (q : ℚ) :
    ∀ (cs : List Cand) (acc : RecAcc),
      (∀ c ∈ cs, cRes df c = true → c.spec_match ≤ acc.highest) →
      ∃ p2, procRecs df q (cs.map encCand) acc =
        Except.ok ⟨p2, acc.best, acc.highest⟩ := by
  intro cs
  induction cs with
  | nil => intro acc _; exact ⟨acc.pricing, rfl⟩
  | cons c cs ih =>
    intro acc h
    cases hlk : skuLookup df (Val.str c.sku) with
    | none =>
      rw [List.map_cons, procRecs_cons_none df q c _ acc hlk]
      exact ih acc (fun d hd hr => h d (List.mem_cons_of_mem c hd) hr)
    | some row =>
      have hc : cRes df c = true := by unfold cRes; rw [hlk]; rfl
      have hle : c.spec_match ≤ acc.highest := h c (List.mem_cons_self c cs) hc
      rw [List.map_cons, procRecs_cons_some df q c _ acc row hlk,
        if_neg (not_lt.mpr hle)]
      exact ih ⟨acc.pricing ++ [candEntry c row q], acc.best, acc.highest⟩
        (fun d hd hr => h d (List.mem_cons_of_mem c hd) hr)

theorem procRecs_found (df : List ProductRow) (q : ℚ) (c : Cand)
    (row : ProductRow) (hrow : skuLookup df (Val.str c.sku) = Option.some row) :
    ∀ (l1 l2 : List Cand) (acc : RecAcc),
      acc.highest < c.spec_match →
      (∀ d ∈ l1, cRes df d = true → d.spec_match < c.spec_match) →
      (∀ d ∈ l2, cRes df d = true → d.spec_match ≤ c.spec_match) →
      ∃ p2, procRecs df q ((l1 ++ c :: l2).map encCand) acc =
        Except.ok ⟨p2, Option.some (Val.str c.sku, row.base_price * q),
          c.spec_match⟩ := by
  intro l1
  induction l1 with
  | nil =>
    intro l2 acc hgt _ hafter
    rw [List.nil_append, List.map_cons,
      procRecs_cons_some df q c _ acc row hrow, if_pos hgt]
    exact procRecs_keep df q l2
      ⟨acc.pricing ++ [candEntry c row q],
        Option.some (Val.str c.sku, row.base_price * q), c.spec_match⟩ hafter
  | cons d l1 ih =>
    intro l2 acc hgt hbefore hafter
    rw [List.cons_append, List.map_cons]
    cases hlk : skuLookup df (Val.str d.sku) with
    | none =>
      rw [procRecs_cons_none df q d _ acc hlk]
      exact ih l2 acc hgt
        (fun e he hr => hbefore e (List.mem_cons_of_mem d he) hr) hafter
    | some rowd =>
      have hd : cRes df d = true := by unfold cRes; rw [hlk]; rfl
      have hdlt : d.spec_match < c.spec_match :=
        hbefore d (List.mem_cons_self d l1) hd
      rw [procRecs_cons_some df q d _ acc rowd hlk]
      by_cases hcase : acc.highest < d.spec_match
      · rw [if_pos hcase]
        exact ih l2 ⟨acc.pricing ++ [candEntry d rowd q],
          Option.some (Val.str d.sku, rowd.base_price * q), d.spec_match⟩ hdlt
          (fun e he hr => hbefore e (List.mem_cons_of_mem d he) hr) hafter
      · rw [if_neg hcase]
        exact ih l2 ⟨acc.pricing ++ [candEntry d rowd q], acc.best,
          acc.highest⟩ hgt
          (fun e he hr => hbefore e (List.mem_cons_of_mem d he) hr) hafter

theorem exists_first_argmax (df : List ProductRow) :
    ∀ cs : List Cand, (∃ c ∈ cs, cRes df c = true ∧ -1 < c.spec_match) →
      ∃ l1 c l2, cs = l1 ++ c :: l2 ∧ cRes df c = true ∧ -1 < c.spec_match ∧
        (∀ d ∈ l1, cRes df d = true → d.spec_match < c.spec_match) ∧
        (∀ d ∈ l2, cRes df d = true → d.spec_match ≤ c.spec_match) := by
  intro cs
  induction cs with
  | nil => intro h; obtain ⟨c, hc, _⟩ := h; exact absurd hc (List.not_mem_nil c)
  | cons a cs ih =>
    intro h
    by_cases ha : cRes df a = true ∧ -1 < a.spec_match
    · by_cases hbig : ∃ d ∈ cs, cRes df d = true ∧ a.spec_match < d.spec_match
      · obtain ⟨d, hd, hdr, hda⟩ := hbig
        obtain ⟨l1, c, l2, heq, hcr, hcs, hbefore, hafter⟩ :=
          ih ⟨d, hd, hdr, lt_trans ha.2 hda⟩
        have hac : a.spec_match < c.spec_match := by
          rcases (List.mem_append.mp (heq ▸ hd)) with hmem | hmem
          · exact lt_of_lt_of_le hda (le_of_lt (hbefore d hmem hdr))
          · rcases List.mem_cons.mp hmem with hdc | hmem
            · exact hdc ▸ hda
            · exact lt_of_lt_of_le hda (hafter d hmem hdr)
        refine ⟨a :: l1, c, l2, by rw [heq, List.cons_append], hcr, hcs, ?_,
          hafter⟩
        intro e he her
        rcases List.mem_cons.mp he with hea | hel
        · exact hea ▸ hac
        · exact hbefore e hel her
      · push_neg at hbig
        exact ⟨[], a, cs, rfl, ha.1, ha.2,
          fun d hd => absurd hd (List.not_mem_nil d),
          fun d hd hdr => hbig d hd hdr⟩
    · obtain ⟨c0, hc0, hc0r, hc0p⟩ := h
      have hc0cs : c0 ∈ cs := by
        rcases List.mem_cons.mp hc0 with hca | hmem
        · exact absurd ⟨hca ▸ hc0r, hca ▸ hc0p⟩ ha
        · exact hmem
      obtain ⟨l1, c, l2, heq, hcr, hcsp, hbefore, hafter⟩ :=
        ih ⟨c0, hc0cs, hc0r, hc0p⟩
      refine ⟨a :: l1, c, l2, by rw [heq, List.cons_append], hcr, hcsp, ?_,
        hafter⟩
      intro e he her
      rcases List.mem_cons.mp he with hea | hel
      · subst hea
        have hna : ¬ (-1 < e.spec_match) := fun hp => ha ⟨her, hp⟩
        exact lt_of_le_of_lt (not_lt.mp hna) hcsp
      · exact hbefore e hel her

theorem procLine_enc (df : List ProductRow) (lid si : Val) (q : ℚ)
    (cs : List Cand) :
    procLine df (encLine lid si q cs) =
      Except.bind (procRecs df q (cs.map encCand) ⟨[], Option.none, -1⟩)
        (fun acc =>
          match acc.best with
          | Option.some (skuV, total) =>
            Except.ok (lineBase lid si q acc.pricing ++
              [("included_sku", skuV),
               ("included_total_price", Val.num total)], total)
          | Option.none => Except.ok (lineBase lid si q acc.pricing, 0)) := rfl

/-! ## Claim C3 -/

unseal Rat.mul Rat.add in
/-- Claim C3 (amended): for every candidate list holding at least one
catalog-resolvable candidate whose spec-match score exceeds −1 (the loop's
initial `highest_spec`, below which a candidate can never be picked because
the update test is strict), the bid selector selects as `included_sku` the
resolvable candidate with the maximum spec-match score, the first one in
input order on an exact tie; the concrete tied pair shows both input orders
deterministically, and the selected line total is unit price times
quantity. -/
theorem bid_selector_max_first :
    (∀ (df : List ProductRow) (lid si : Val) (q : ℚ) (cs : List Cand),
      (∃ c ∈ cs, cRes df c = true ∧ -1 < c.spec_match) →
      ∃ l1 c l2 row p2,
        cs = l1 ++ c :: l2 ∧ cRes df c = true ∧
        skuLookup df (Val.str c.sku) = Option.some row ∧
        (∀ d ∈ cs, cRes df d = true → d.spec_match ≤ c.spec_match) ∧
        (∀ d ∈ l1, cRes df d = true → d.spec_match < c.spec_match) ∧
        procLine df (encLine lid si q cs) =
          Except.ok (lineBase lid si q p2 ++
            [("included_sku", Val.str c.sku),
             ("included_total_price", Val.num (row.base_price * q))],
            row.base_price * q)) ∧
    (procLine tieDf (encLine (Val.str "L") (Val.str "i") 5
        [candA, candB])).map (fun p => (pyGetD p.1 "included_sku" Val.none, p.2)) =
      Except.ok (Val.str "SKU-A", 50) ∧
    (procLine tieDf (encLine (Val.str "L") (Val.str "i") 5
        [candB, candA])).map (fun p => (pyGetD p.1 "included_sku" Val.none, p.2)) =
      Except.ok (Val.str "SKU-B", 60) := by
  refine ⟨?_, rfl, rfl⟩
  intro df lid si q cs h
  obtain ⟨l1, c, l2, heq, hcr, hcsp, hbefore, hafter⟩ :=
    exists_first_argmax df cs h
  obtain ⟨row, hrow⟩ : ∃ row, skuLookup df (Val.str c.sku) = Option.some row := by
    unfold cRes at hcr
    exact Option.isSome_iff_exists.mp hcr
  obtain ⟨p2, hpr⟩ := procRecs_found df q c row hrow l1 l2
    ⟨[], Option.none, -1⟩ hcsp hbefore hafter
  subst heq
  refine ⟨l1, c, l2, row, p2, rfl, hcr, hrow, ?_, hbefore, ?_⟩
  · intro d hd hdr
    rcases List.mem_append.mp hd with hmem | hmem
    · exact le_of_lt (hbefore d hmem hdr)
    · rcases List.mem_cons.mp hmem with hdc | hmem
      · exact le_of_eq (congrArg Cand.spec_match hdc)
      · exact hafter d hmem hdr
  · rw [procLine_enc, hpr]
    rfl

/-- Claim C3 witness: the general statement applied to the concrete tied
candidate pair over the concrete catalog. -/
theorem bid_selector_max_first_witness :
    ∃ l1 c l2 row p2,
      ([candA, candB] : List Cand) = l1 ++ c :: l2 ∧ cRes tieDf c = true ∧
      skuLookup tieDf (Val.str c.sku) = Option.some row ∧
      (∀ d ∈ [candA, candB], cRes tieDf d = true →
        d.spec_match ≤ c.spec_match) ∧
      (∀ d ∈ l1, cRes tieDf d = true → d.spec_match < c.spec_match) ∧
      procLine tieDf (encLine (Val.str "L") (Val.str "i") 5 [candA, candB]) =
        Except.ok (lineBase (Val.str "L") (Val.str "i") 5 p2 ++
          [("included_sku", Val.str c.sku),
           ("included_total_price", Val.num (row.base_price * 5))],
          row.base_price * 5) :=
  bid_selector_max_first.1 tieDf (Val.str "L") (Val.str "i") 5 [candA, candB]
    ⟨candA, List.mem_cons_self candA [candB], by decide, by decide⟩

/-- Claim C3 counterexample: a lone resolvable candidate with spec-match
score exactly −1 is never selected (the line carries no `included_sku` and
contributes zero), refuting the unrestricted claim that the maximum-scoring
resolvable candidate is always selected. -/
theorem bid_selector_neg_one_ce :
    cRes tieDf ⟨"SKU-A", -1⟩ = true ∧
    (procLine tieDf (encLine (Val.str "L1") (Val.str "i") 5
        [⟨"SKU-A", -1⟩])).map (fun p => (hasKey p.1 "included_sku", p.2)) =
      Except.ok (false, 0) :=
  ⟨rfl, rfl⟩

/-! ## Claim C6 -/

theorem exceptMap_congr {α β : Type} (f g : α → β) (x : Except String α)
    (h : ∀ a, f a = g a) : x.map f = x.map g := by
  cases x with
  | error e => rfl
  | ok a => show Except.ok (f a) = Except.ok (g a); rw [h a]

theorem processProductsAux_shift (df : List ProductRow) :
    ∀ (ls tbl : List PyDict) (tot : ℚ),
      processProductsAux df ls tbl tot =
        (processProductsAux df ls [] 0).map
          (fun p => (tbl ++ p.1, tot + p.2)) := by
  intro ls
  induction ls with
  | nil =>
    intro tbl tot
    show Except.ok (tbl, tot) = Except.ok (tbl ++ [], tot + 0)
    rw [List.append_nil, add_zero]
  | cons l ls ih =>
    intro tbl tot
    cases hl : procLine df l with
    | error e =>
      simp only [processProductsAux, hl, Except.map, Except.bind, bind]
    | ok p =>
      obtain ⟨e, c⟩ := p
      simp only [processProductsAux, hl, Except.bind, bind, List.nil_append]
      rw [ih (tbl ++ [e]) (tot + c), ih [e] (0 + c)]
      cases haux : processProductsAux df ls [] 0 with
      | error e2 => rfl
      | ok p2 =>
        show Except.ok ((tbl ++ [e]) ++ p2.1, (tot + c) + p2.2) =
          Except.ok (tbl ++ ([e] ++ p2.1), tot + ((0 + c) + p2.2))
        rw [List.append_assoc, zero_add, add_assoc]

/-- Claim C6: a line whose candidate list is empty or whose candidates all
fail the catalog lookup is priced at zero (no contribution to the material
total), carries no `included_sku`, and processing of the remaining lines
continues unchanged. -/
theorem unresolved_line_prices_zero (df : List ProductRow) (lid si : Val)
    (q : ℚ) (cs : List Cand) (rest : List PyDict)
    (h : ∀ c ∈ cs, cRes df c = false) :
    procLine df (encLine lid si q cs) = Except.ok (lineBase lid si q [], 0) ∧
    hasKey (lineBase lid si q []) "included_sku" = false ∧
    includedPrice (lineBase lid si q []) = 0 ∧
    process_products df (encLine lid si q cs :: rest) =
      (process_products df rest).map
        (fun p => (lineBase lid si q [] :: p.1, p.2)) := by
  have h1 : procLine df (encLine lid si q cs) =
      Except.ok (lineBase lid si q [], 0) := by
    rw [procLine_enc, procRecs_skip_all df q cs ⟨[], Option.none, -1⟩ h]
    rfl
  refine ⟨h1, rfl, rfl, ?_⟩
  show processProductsAux df (encLine lid si q cs :: rest) [] 0 = _
  simp only [processProductsAux, h1, Except.bind, bind, List.nil_append]
  rw [processProductsAux_shift df rest [lineBase lid si q []] (0 + 0)]
  exact exceptMap_congr _ _ _ (fun p => by
    show ([lineBase lid si q []] ++ p.1, (0 + 0) + p.2) = (lineBase lid si q [] :: p.1, p.2)
    rw [List.singleton_append, zero_add, zero_add])

/-- Claim C6 witness: the statement applied to a line with one candidate that
resolves against nothing in an empty catalog. -/
theorem unresolved_line_prices_zero_witness :
    procLine [] (encLine (Val.str "L9") (Val.str "x") 3 [⟨"SKU-Z", 1⟩]) =
      Except.ok (lineBase (Val.str "L9") (Val.str "x") 3 [], 0) ∧
    hasKey (lineBase (Val.str "L9") (Val.str "x") 3 []) "included_sku" = false ∧
    includedPrice (lineBase (Val.str "L9") (Val.str "x") 3 []) = 0 ∧
    process_products [] (encLine (Val.str "L9") (Val.str "x") 3
        [⟨"SKU-Z", 1⟩] :: []) =
      (process_products [] []).map
        (fun p => (lineBase (Val.str "L9") (Val.str "x") 3 [] :: p.1, p.2)) :=
  unresolved_line_prices_zero [] (Val.str "L9") (Val.str "x") 3
    [⟨"SKU-Z", 1⟩] [] (by decide)

/-! ## Claims C2 and C7 -/

theorem bind_ok_inv {α β : Type} {x : Except String α} {f : α → Except String β}
    {b : β} (h : Except.bind x f = Except.ok b) :
    ∃ a, x = Except.ok a ∧ f a = Except.ok b := by
  cases x with
  | error e => exact absurd h (by intro hc; cases hc)
  | ok a => exact ⟨a, rfl, h⟩

theorem procLine_included (df : List ProductRow) (line : PyDict) (e : PyDict)
    (c : ℚ) (h : procLine df line = Except.ok (e, c)) : includedPrice e = c := by
  unfold procLine at h
  obtain ⟨lid, _, h⟩ := bind_ok_inv h
  obtain ⟨si, _, h⟩ := bind_ok_inv h
  obtain ⟨qv, _, h⟩ := bind_ok_inv h
  obtain ⟨q, _, h⟩ := bind_ok_inv h
  obtain ⟨rv, _, h⟩ := bind_ok_inv h
  obtain ⟨rs, _, h⟩ := bind_ok_inv h
  obtain ⟨acc, _, h⟩ := bind_ok_inv h
  obtain ⟨pricing, best, highest⟩ := acc
  cases best with
  | none =>
    simp only [Except.ok.injEq, Prod.mk.injEq] at h
    obtain ⟨he, hc⟩ := h
    rw [← he, ← hc]
    rfl
  | some sv =>
    obtain ⟨skuV, total⟩ := sv
    simp only [Except.ok.injEq, Prod.mk.injEq] at h
    obtain ⟨he, hc⟩ := h
    rw [← he, ← hc]
    rfl

theorem processProductsAux_sum (df : List ProductRow) :
    ∀ (ls : List PyDict) (t : List PyDict) (m : ℚ),
      processProductsAux df ls [] 0 = Except.ok (t, m) →
      m = (t.map includedPrice).sum := by
  intro ls
  induction ls with
  | nil =>
    intro t m h
    simp only [processProductsAux, Except.ok.injEq, Prod.mk.injEq] at h
    rw [← h.1, ← h.2]
    rfl
  | cons l ls ih =>
    intro t m h
    simp only [processProductsAux, List.nil_append] at h
    obtain ⟨⟨e, c⟩, hl, h⟩ := bind_ok_inv h
    rw [processProductsAux_shift df ls [e] (0 + c)] at h
    cases haux : processProductsAux df ls [] 0 with
    | error e2 => rw [haux] at h; cases h
    | ok p2 =>
      rw [haux] at h
      simp only [Except.map, Except.ok.injEq, Prod.mk.injEq] at h
      obtain ⟨ht, hm⟩ := h
      rw [← ht, ← hm, List.singleton_append, List.map_cons, List.sum_cons,
        procLine_included df l e c hl, ih p2.1 p2.2 (by rw [haux]), zero_add,
        add_comm]

theorem process_products_sum (df : List ProductRow) (rows t : List PyDict)
    (m : ℚ) (h : process_products df rows = Except.ok (t, m)) :
    m = (t.map includedPrice).sum :=
  processProductsAux_sum df rows t m h

theorem processTestsAux_eq (df : List TestRow) :
    ∀ (tests : List String) (acc : List PyDict) (tot : ℚ),
      processTestsAux df tests acc tot =
        (acc ++ matchedTests tests df,
          tot + ((matchedTests tests df).map testUnitCost).sum) := by
  intro tests
  induction tests with
  | nil =>
    intro acc tot
    show (acc, tot) = (acc ++ [], tot + 0)
    rw [List.append_nil, add_zero]
  | cons n ns ih =>
    intro acc tot
    cases hlk : testLookup df n with
    | none =>
      have hstep : processTestsAux df (n :: ns) acc tot =
          processTestsAux df ns acc tot := by
        show (match testLookup df n with
          | Option.some row => processTestsAux df ns (acc ++ [testInfo n row])
              (tot + row.unit_cost)
          | Option.none => processTestsAux df ns acc tot) = _
        rw [hlk]
      have hm : matchedTests (n :: ns) df = matchedTests ns df := by
        simp [matchedTests, List.filterMap_cons, hlk]
      rw [hstep, ih acc tot, hm]
    | some row =>
      have hstep : processTestsAux df (n :: ns) acc tot =
          processTestsAux df ns (acc ++ [testInfo n row])
            (tot + row.unit_cost) := by
        show (match testLookup df n with
          | Option.some row => processTestsAux df ns (acc ++ [testInfo n row])
              (tot + row.unit_cost)
          | Option.none => processTestsAux df ns acc tot) = _
        rw [hlk]
      have hm : matchedTests (n :: ns) df =
          testInfo n row :: matchedTests ns df := by
        simp [matchedTests, List.filterMap_cons, hlk]
      rw [hstep, ih (acc ++ [testInfo n row]) (tot + row.unit_cost), hm,
        List.map_cons, List.sum_cons, List.append_assoc,
        List.singleton_append]
      have hu : testUnitCost (testInfo n row) = row.unit_cost := rfl
      rw [hu, add_assoc]

theorem process_tests_eq (tests : List String) (df : List TestRow) :
    process_tests tests df =
      (matchedTests tests df,
        ((matchedTests tests df).map testUnitCost).sum) := by
  unfold process_tests
  rw [processTestsAux_eq df tests [] 0, List.nil_append, zero_add]

unseal Rat.add in
/-- Claim C7: the test-cost computation silently skips required test names
absent from the test catalog, and exactly the catalog-present tests appear in
`matched_tests` and contribute their unit cost to `total_test_cost`; in the
concrete scenario with required tests X and Y and a catalog holding only X at
cost 100, one test is matched and the total is 100. -/
theorem tests_skip_unmatched :
    (∀ (tests : List String) (df : List TestRow),
      process_tests tests df =
        (matchedTests tests df,
          ((matchedTests tests df).map testUnitCost).sum)) ∧
    (process_tests ["X", "Y"] [⟨"X", "Chemical", 100, 2⟩]).1.length = 1 ∧
    (process_tests ["X", "Y"] [⟨"X", "Chemical", 100, 2⟩]).2 = 100 :=
  ⟨fun tests df => process_tests_eq tests df, rfl, rfl⟩

/-- Claim C2: whenever the pricing agent returns a result, the summary's
overall project cost is exactly the sum of `total_material_cost` and
`total_test_cost`, where the material total is itself the sum of the
included line totals and the test total the sum of the matched tests' unit
costs, for arbitrary (including empty) line and test counts. -/
theorem grand_total_is_sum (pdf : List ProductRow) (tdf : List TestRow)
    (saveRes : PyDict → Except String Unit) (input : PricingInput)
    (out : PyDict)
    (h : run_pricing_agent (Except.ok (pdf, tdf)) saveRes input =
      Except.ok out) :
    ∃ tbl mat,
      process_products pdf input.technical_table = Except.ok (tbl, mat) ∧
      mat = (tbl.map includedPrice).sum ∧
      dget out "pricing_table" = Except.ok (Val.list (tbl.map Val.dict)) ∧
      dget out "matched_tests" = Except.ok (Val.list
        ((matchedTests input.tests tdf).map Val.dict)) ∧
      dget out "summary" = Except.ok (Val.dict
        [("total_material_cost", Val.num mat),
         ("total_test_cost",
           Val.num (((matchedTests input.tests tdf).map testUnitCost).sum)),
         ("overall_project_cost", Val.num (mat +
           ((matchedTests input.tests tdf).map testUnitCost).sum))]) := by
  unfold run_pricing_agent at h
  obtain ⟨pq, hpq, h⟩ := bind_ok_inv h
  obtain rfl : pq = (pdf, tdf) := (Except.ok.inj hpq).symm
  obtain ⟨⟨tbl, mat⟩, hp, h⟩ := bind_ok_inv h
  replace hp : process_products pdf input.technical_table =
    Except.ok (tbl, mat) := hp
  replace h : Except.bind
      (saveRes (build_output_json input.rfp_id tbl
        (process_tests input.tests tdf).1 mat
        (process_tests input.tests tdf).2))
      (fun _ => Except.ok (build_output_json input.rfp_id tbl
        (process_tests input.tests tdf).1 mat
        (process_tests input.tests tdf).2)) = Except.ok out := h
  rw [process_tests_eq input.tests tdf] at h
  replace h : Except.bind
      (saveRes (build_output_json input.rfp_id tbl
        (matchedTests input.tests tdf) mat
        (((matchedTests input.tests tdf).map testUnitCost).sum)))
      (fun _ => Except.ok (build_output_json input.rfp_id tbl
        (matchedTests input.tests tdf) mat
        (((matchedTests input.tests tdf).map testUnitCost).sum))) =
      Except.ok out := h
  obtain ⟨u, hs, h⟩ := bind_ok_inv h
  have hout : out = build_output_json input.rfp_id tbl
      (matchedTests input.tests tdf) mat
      (((matchedTests input.tests tdf).map testUnitCost).sum) :=
    (Except.ok.inj h).symm
  refine ⟨tbl, mat, hp, process_products_sum pdf input.technical_table tbl
    mat hp, ?_, ?_, ?_⟩ <;> rw [hout] <;> rfl

/-- Claim C2 witness: the statement applied to a run over an empty technical
table and empty catalogs, where the agent returns without raising. -/
theorem grand_total_is_sum_witness :
    ∃ tbl mat,
      process_products [] (PricingInput.mk (Val.str "R") [] []).technical_table
        = Except.ok (tbl, mat) ∧
      mat = (tbl.map includedPrice).sum ∧
      dget (build_output_json (Val.str "R") [] [] 0 0) "pricing_table" =
        Except.ok (Val.list (tbl.map Val.dict)) ∧
      dget (build_output_json (Val.str "R") [] [] 0 0) "matched_tests" =
        Except.ok (Val.list ((matchedTests
          (PricingInput.mk (Val.str "R") [] []).tests []).map Val.dict)) ∧
      dget (build_output_json (Val.str "R") [] [] 0 0) "summary" =
        Except.ok (Val.dict
          [("total_material_cost", Val.num mat),
           ("total_test_cost", Val.num (((matchedTests
             (PricingInput.mk (Val.str "R") [] []).tests []).map
               testUnitCost).sum)),
           ("overall_project_cost", Val.num (mat + ((matchedTests
             (PricingInput.mk (Val.str "R") [] []).tests []).map
               testUnitCost).sum))]) :=
  grand_total_is_sum [] [] (fun _ => Except.ok ())
    (PricingInput.mk (Val.str "R") [] [])
    (build_output_json (Val.str "R") [] [] 0 0) rfl

/-! ## Claims C4 and C5 -/

theorem insertDesc_length (x : ℚ × PyDict) :
    ∀ l, (insertDesc x l).length = l.length + 1 := by
  intro l
  induction l with
  | nil => rfl
  | cons y ys ih =>
    show (if y.1 < x.1 then x :: y :: ys else y :: insertDesc x ys).length = _
    by_cases h : y.1 < x.1
    · rw [if_pos h]; rfl
    · rw [if_neg h, List.length_cons, List.length_cons, ih]

theorem sortDesc_foldl_length :
    ∀ (l : List (ℚ × PyDict)) (acc : List (ℚ × PyDict)),
      (List.foldl (fun acc x => insertDesc x acc) acc l).length =
        acc.length + l.length := by
  intro l
  induction l with
  | nil => intro acc; rfl
  | cons x l ih =>
    intro acc
    rw [List.foldl_cons, ih (insertDesc x acc), insertDesc_length,
      List.length_cons]
    omega

theorem sortDesc_length (l : List (ℚ × PyDict)) :
    (sortDesc l).length = l.length := by
  unfold sortDesc
  rw [sortDesc_foldl_length l [], List.length_nil, Nat.zero_add]

theorem insertDesc_mem (x b : ℚ × PyDict) :
    ∀ l, b ∈ insertDesc x l → b = x ∨ b ∈ l := by
  intro l
  induction l with
  | nil => intro h; rcases List.mem_singleton.mp h with h; exact Or.inl h
  | cons y ys ih =>
    intro h
    by_cases hc : y.1 < x.1
    · rw [show insertDesc x (y :: ys) =
        (if y.1 < x.1 then x :: y :: ys else y :: insertDesc x ys) from rfl,
        if_pos hc] at h
      rcases List.mem_cons.mp h with h | h
      · exact Or.inl h
      · exact Or.inr h
    · rw [show insertDesc x (y :: ys) =
        (if y.1 < x.1 then x :: y :: ys else y :: insertDesc x ys) from rfl,
        if_neg hc] at h
      rcases List.mem_cons.mp h with h | h
      · exact Or.inr (h ▸ List.mem_cons_self y ys)
      · rcases ih h with h | h
        · exact Or.inl h
        · exact Or.inr (List.mem_cons_of_mem y h)

theorem insertDesc_sorted (x : ℚ × PyDict) :
    ∀ l, l.Pairwise (fun a b => b.1 ≤ a.1) →
      (insertDesc x l).Pairwise (fun a b => b.1 ≤ a.1) := by
  intro l
  induction l with
  | nil => intro _; exact List.pairwise_singleton _ x
  | cons y ys ih =>
    intro hp
    rw [List.pairwise_cons] at hp
    obtain ⟨hy, hys⟩ := hp
    show (if y.1 < x.1 then x :: y :: ys else y :: insertDesc x ys).Pairwise _
    by_cases h : y.1 < x.1
    · rw [if_pos h, List.pairwise_cons]
      refine ⟨?_, List.pairwise_cons.mpr ⟨hy, hys⟩⟩
      intro b hb
      rcases List.mem_cons.mp hb with hb | hb
      · exact hb ▸ le_of_lt h
      · exact le_trans (hy b hb) (le_of_lt h)
    · rw [if_neg h, List.pairwise_cons]
      refine ⟨?_, ih hys⟩
      intro b hb
      rcases insertDesc_mem x b ys hb with hb | hb
      · exact hb ▸ not_lt.mp h
      · exact hy b hb

theorem sortDesc_foldl_sorted :
    ∀ (l acc : List (ℚ × PyDict)),
      acc.Pairwise (fun a b => b.1 ≤ a.1) →
      (List.foldl (fun acc x => insertDesc x acc) acc l).Pairwise
        (fun a b => b.1 ≤ a.1) := by
  intro l
  induction l with
  | nil => intro acc h; exact h
  | cons x l ih =>
    intro acc h
    rw [List.foldl_cons]
    exact ih (insertDesc x acc) (insertDesc_sorted x acc h)

theorem sortDesc_sorted (l : List (ℚ × PyDict)) :
    (sortDesc l).Pairwise (fun a b => b.1 ≤ a.1) :=
  sortDesc_foldl_sorted l [] List.Pairwise.nil

theorem insertDesc_filter (x : ℚ × PyDict) (c : ℚ) :
    ∀ l, l.Pairwise (fun a b => b.1 ≤ a.1) →
      (insertDesc x l).filter (fun p => decide (p.1 = c)) =
        l.filter (fun p => decide (p.1 = c)) ++
          (if x.1 = c then [x] else []) := by
  intro l
  induction l with
  | nil =>
    intro _
    by_cases hx : x.1 = c <;> simp [insertDesc, hx]
  | cons y ys ih =>
    intro hp
    rw [List.pairwise_cons] at hp
    obtain ⟨hy, hys⟩ := hp
    show (if y.1 < x.1 then x :: y :: ys else y :: insertDesc x ys).filter _ = _
    by_cases h : y.1 < x.1
    · rw [if_pos h]
      by_cases hx : x.1 = c
      · have hnil : (y :: ys).filter (fun p => decide (p.1 = c)) = [] := by
          rw [List.filter_eq_nil_iff]
          intro b hb
          have hble : b.1 ≤ y.1 := by
            rcases List.mem_cons.mp hb with hb | hb
            · exact le_of_eq (congrArg Prod.fst hb)
            · exact hy b hb
          have : b.1 < c := lt_of_le_of_lt hble (hx ▸ h)
          simp [ne_of_lt this]
        rw [show (x :: y :: ys).filter (fun p => decide (p.1 = c)) =
          x :: (y :: ys).filter (fun p => decide (p.1 = c)) from by
            simp [List.filter_cons, hx], hnil, if_pos hx]
        rfl
      · rw [show (x :: y :: ys).filter (fun p => decide (p.1 = c)) =
          (y :: ys).filter (fun p => decide (p.1 = c)) from by
            simp [List.filter_cons, hx], if_neg hx, List.append_nil]
    · rw [if_neg h]
      by_cases hyc : y.1 = c
      · rw [show (y :: insertDesc x ys).filter (fun p => decide (p.1 = c)) =
          y :: (insertDesc x ys).filter (fun p => decide (p.1 = c)) from by
            simp [List.filter_cons, hyc],
          show (y :: ys).filter (fun p => decide (p.1 = c)) =
          y :: ys.filter (fun p => decide (p.1 = c)) from by
            simp [List.filter_cons, hyc],
          ih hys, List.cons_append]
      · rw [show (y :: insertDesc x ys).filter (fun p => decide (p.1 = c)) =
          (insertDesc x ys).filter (fun p => decide (p.1 = c)) from by
            simp [List.filter_cons, hyc],
          show (y :: ys).filter (fun p => decide (p.1 = c)) =
          ys.filter (fun p => decide (p.1 = c)) from by
            simp [List.filter_cons, hyc],
          ih hys]

theorem sortDesc_foldl_filter (c : ℚ) :
    ∀ (l acc : List (ℚ × PyDict)),
      acc.Pairwise (fun a b => b.1 ≤ a.1) →
      (List.foldl (fun acc x => insertDesc x acc) acc l).filter
          (fun p => decide (p.1 = c)) =
        acc.filter (fun p => decide (p.1 = c)) ++
          l.filter (fun p => decide (p.1 = c)) := by
  intro l
  induction l with
  | nil => intro acc _; rw [List.filter_nil, List.append_nil]; rfl
  | cons x l ih =>
    intro acc h
    rw [List.foldl_cons, ih (insertDesc x acc) (insertDesc_sorted x acc h),
      insertDesc_filter x c acc h]
    by_cases hx : x.1 = c
    · rw [if_pos hx,
        show (x :: l).filter (fun p => decide (p.1 = c)) =
          x :: l.filter (fun p => decide (p.1 = c)) from by
            simp [List.filter_cons, hx],
        List.append_assoc, List.singleton_append]
    · rw [if_neg hx,
        show (x :: l).filter (fun p => decide (p.1 = c)) =
          l.filter (fun p => decide (p.1 = c)) from by
            simp [List.filter_cons, hx],
        List.append_nil]

theorem sortDesc_filter (l : List (ℚ × PyDict)) (c : ℚ) :
    (sortDesc l).filter (fun p => decide (p.1 = c)) =
      l.filter (fun p => decide (p.1 = c)) := by
  unfold sortDesc
  rw [sortDesc_foldl_filter c l [] List.Pairwise.nil]
  rfl

/-- Claim C4 (amended): for every query (modelled by an arbitrary per-record
scoring function) and every k, the search returns exactly
`min k (number of records carrying an embedding)` results — hence never more
than k, and fewer than k exactly when fewer than k records carry embeddings
(records lacking an `"embedding"` key are skipped) — ordered by score
descending; an unavailable embedding model and an empty index both yield an
empty result without error. -/
theorem search_topk_bound :
    (∀ (records : List PyDict) (score : PyDict → ℚ) (k : ℕ),
      (search_cables true records score k).length =
        min k ((records.filter (fun r => hasKey r "embedding")).length)) ∧
    (∀ (records : List PyDict) (score : PyDict → ℚ) (k : ℕ),
      (search_cables true records score k).Pairwise
        (fun a b => b.1 ≤ a.1)) ∧
    (∀ (records : List PyDict) (score : PyDict → ℚ) (k : ℕ),
      search_cables false records score k = []) ∧
    (∀ (score : PyDict → ℚ) (k : ℕ), search_cables true [] score k = []) := by
  refine ⟨?_, ?_, fun _ _ _ => rfl, fun _ _ => rfl⟩
  · intro records score k
    cases records with
    | nil => show (0 : ℕ) = min k 0; rw [Nat.min_zero]
    | cons r rs =>
      show ((sortDesc (((r :: rs).filter (fun r => hasKey r "embedding")).map
        (fun r => (score r, r)))).take k).length = _
      rw [List.length_take, sortDesc_length, List.length_map]
  · intro records score k
    cases records with
    | nil => exact List.Pairwise.nil
    | cons r rs =>
      show (((sortDesc (((r :: rs).filter (fun r => hasKey r "embedding")).map
        (fun r => (score r, r)))).take k)).Pairwise _
      exact List.Pairwise.sublist (List.take_sublist k _) (sortDesc_sorted _)

/-- Claim C4 counterexample: an available index holding two records, one of
them without an `"embedding"` key, returns a single result for k = 2 even
though the index holds two records, refuting "fewer than k only when the
index holds fewer than k records". -/
theorem search_topk_bound_ce :
    (search_cables true [recWithEmb, recNoEmb] (fun _ => 0) 2).length = 1 ∧
    ¬ (([recWithEmb, recNoEmb] : List PyDict).length < 2) :=
  ⟨rfl, by decide⟩

/-- Claim C5 (amended): tied similarity scores are returned in the records'
input (load) order — Python's sort is stable — not ordered by record
identifier; in the concrete 3-record scenario with similarities 0.9, 0.9,
0.4 and k = 2, the two 0.9 records are returned in their input order (for
both input orders) and the 0.4 record is excluded.  The first conjunct is
the general stability law: sorting preserves the relative order of
equal-score entries. -/
theorem search_tie_stable :
    (∀ (l : List (ℚ × PyDict)) (c : ℚ),
      (sortDesc l).filter (fun p => decide (p.1 = c)) =
        l.filter (fun p => decide (p.1 = c))) ∧
    search_cables true [recId5, recId2, recId7] scoreTie 2 =
      [(mkRat 9 10, recId5), (mkRat 9 10, recId2)] ∧
    search_cables true [recId2, recId5, recId7] scoreTie 2 =
      [(mkRat 9 10, recId2), (mkRat 9 10, recId5)] :=
  ⟨sortDesc_filter, rfl, rfl⟩

/-- Claim C5 counterexample: in the spec's own scenario the two tied 0.9
records come back carrying identifiers 5 then 2 — the input order — which is
not ascending identifier order, refuting the claimed tie-break. -/
theorem search_tie_stable_ce :
    (search_cables true [recId5, recId2, recId7] scoreTie 2).map
      (fun p => pyGetD p.2 "id" Val.none) = [Val.num 5, Val.num 2] ∧
    (search_cables true [recId5, recId2, recId7] scoreTie 2).map Prod.fst =
      [mkRat 9 10, mkRat 9 10] ∧
    ¬ ((5 : ℚ) ≤ 2) :=
  ⟨rfl, rfl, by norm_num⟩

/-! ## Claim C8 -/

/-- Claim C8: the spec-match stage derives its query list as a pure function
of the input text; the searched list `queries[:5]` is the whole derived list,
of length at most 5 (so at most five retrieval lookups) and at least 1 (so
never zero lookups); and when the lowercased text contains none of the fixed
keyword set the list is exactly the one generic fallback query. -/
theorem spec_queries_bounded (d : String) :
    lookupQueries d = extract_product_requirements d ∧
    (extract_product_requirements d).length ≤ 5 ∧
    1 ≤ (extract_product_requirements d).length ∧
    (requirementKeywords.any (fun kw => strHasSub (strLower d) kw) = false →
      extract_product_requirements d =
        ["general purpose electrical cables"]) := by
  cases h : requirementKeywords.any (fun kw => strHasSub (strLower d) kw) with
  | true =>
    have he : extract_product_requirements d =
        ["high current rating cables for industrial use",
         "1.5 sq mm to 10 sq mm electrical cables",
         "heavy duty power cables with insulation"] := by
      simp [extract_product_requirements, h]
    refine ⟨?_, ?_, ?_, ?_⟩
    · unfold lookupQueries; rw [he]; rfl
    · rw [he]; decide
    · rw [he]; decide
    · intro hf; exact absurd hf (by decide)
  | false =>
    have he : extract_product_requirements d =
        ["general purpose electrical cables"] := by
      simp [extract_product_requirements, h]
    refine ⟨?_, ?_, ?_, fun _ => he⟩
    · unfold lookupQueries; rw [he]; rfl
    · rw [he]; decide
    · rw [he]; decide

/-- Claim C8 witness: the statement applied to a text containing none of the
keywords. -/
theorem spec_queries_bounded_witness :
    lookupQueries "hello" = extract_product_requirements "hello" ∧
    (extract_product_requirements "hello").length ≤ 5 ∧
    1 ≤ (extract_product_requirements "hello").length ∧
    extract_product_requirements "hello" =
      ["general purpose electrical cables"] :=
  ⟨(spec_queries_bounded "hello").1, (spec_queries_bounded "hello").2.1,
   (spec_queries_bounded "hello").2.2.1,
   (spec_queries_bounded "hello").2.2.2 rfl⟩

/-! ## Claims C9 and C10 -/

theorem dget_cons_ne (kv : String × Val) (d : PyDict) (k : String)
    (h : (kv.1 == k) = false) : dget (kv :: d) k = dget d k := by
  simp [dget, List.find?_cons, h]

theorem dget_pySet (k : String) (v : Val) :
    ∀ d : PyDict, dget (pySet d k v) k = Except.ok v := by
  intro d
  induction d with
  | nil => simp [pySet, dget, List.find?]
  | cons kv d ih =>
    by_cases hk : (kv.1 == k) = true
    · have hb : (kv.1 != k) = false := by rw [bne, hk]; rfl
      show dget (List.filter (fun kv => kv.1 != k) (kv :: d) ++ [(k, v)]) k = _
      rw [List.filter_cons]
      simp only [hb, Bool.false_eq_true, if_false]
      exact ih
    · have hk2 : (kv.1 == k) = false := by
        cases h2 : kv.1 == k
        · rfl
        · exact absurd h2 hk
      have hb : (kv.1 != k) = true := by rw [bne, hk2]; rfl
      show dget (List.filter (fun kv => kv.1 != k) (kv :: d) ++ [(k, v)]) k = _
      rw [List.filter_cons]
      simp only [hb, if_true]
      rw [List.cons_append, dget_cons_ne kv _ k hk2]
      exact ih

/-- Claim C9: whenever `spec_matches` is non-empty, the technical-table rows
the pricing node builds carry keys `item_no`/`description`/`specifications`/
`quantity`/`match_score` while `process_products` first reads `line_id`, so
`run_pricing_agent` raises `KeyError('line_id')` (whatever the loaded
catalogs are); the pricing node therefore takes its exception fallback: it
stores the fixed estimate dict and appends the `Pricing error` entry. -/
theorem pricing_node_key_mismatch (pdf : List ProductRow) (tdf : List TestRow)
    (saveRes : PyDict → Except String Unit) (ext : Ext) (s : WorkflowState)
    (hms : s.spec_matches ≠ [])
    (hrp : ∀ inp, ext.runPricing inp =
      run_pricing_agent (Except.ok (pdf, tdf)) saveRes inp) :
    run_pricing_agent (Except.ok (pdf, tdf)) saveRes (buildPricingInput s) =
      Except.error "'line_id'" ∧
    pricing_node ext s = { s with
      current_stage := "pricing"
      pricing_input := Option.some
        (buildPricingInput { s with current_stage := "pricing" })
      pricing_result := fallbackPricing
      errors := s.errors ++ ["Pricing error: 'line_id'"] } := by
  obtain ⟨m, ms, hsm⟩ := List.exists_cons_of_ne_nil hms
  have h1 : run_pricing_agent (Except.ok (pdf, tdf)) saveRes
      (buildPricingInput s) = Except.error "'line_id'" := by
    unfold buildPricingInput techTable
    rw [hsm]
    rfl
  refine ⟨h1, ?_⟩
  have h1b : ext.runPricing
      (buildPricingInput { s with current_stage := "pricing" }) =
      Except.error "'line_id'" := by
    rw [hrp]
    exact h1
  unfold pricing_node
  dsimp only
  rw [h1b]
  rfl

/-- Claim C9 witness: a concrete state with one spec match, run against the
real pricing agent over empty catalogs. -/
theorem pricing_node_key_mismatch_witness :
    run_pricing_agent (Except.ok (([] : List ProductRow), ([] : List TestRow)))
      (fun _ => Except.ok ())
      (buildPricingInput { initState with
        spec_matches := [[("query", Val.str "q")]] }) =
      Except.error "'line_id'" ∧
    pricing_node extReal { initState with
        spec_matches := [[("query", Val.str "q")]] } =
      { { initState with spec_matches := [[("query", Val.str "q")]] } with
        current_stage := "pricing"
        pricing_input := Option.some (buildPricingInput
          { { initState with spec_matches := [[("query", Val.str "q")]] } with
            current_stage := "pricing" })
        pricing_result := fallbackPricing
        errors := ({ initState with
          spec_matches := [[("query", Val.str "q")]] } : WorkflowState).errors
            ++ ["Pricing error: 'line_id'"] } :=
  pricing_node_key_mismatch [] [] (fun _ => Except.ok ()) extReal
    { initState with spec_matches := [[("query", Val.str "q")]] }
    (List.cons_ne_nil _ _) (fun _ => rfl)

/-- Claim C10: whenever `run_pricing_agent` returns without raising, its
result nests the totals under `"summary"` as `overall_project_cost` and has
no top-level `"grand_total"` key, so `pricing_result.get("grand_total", 0)`
is 0 and the response stage's enhanced-lead `total_cost` is 0 regardless of
the computed overall project cost. -/
theorem response_total_cost_zero (pdf : List ProductRow) (tdf : List TestRow)
    (saveRes : PyDict → Except String Unit) (input : PricingInput)
    (out : PyDict)
    (h : run_pricing_agent (Except.ok (pdf, tdf)) saveRes input =
      Except.ok out) :
    hasKey out "grand_total" = false ∧
    pyGetD out "grand_total" (Val.num 0) = Val.num 0 ∧
    (∃ mat tc, dget out "summary" = Except.ok (Val.dict
      [("total_material_cost", Val.num mat),
       ("total_test_cost", Val.num tc),
       ("overall_project_cost", Val.num (mat + tc))])) ∧
    (∀ s : WorkflowState, s.pricing_result = out →
      dget (enhancedLead s) "total_cost" = Except.ok (Val.num 0)) := by
  unfold run_pricing_agent at h
  obtain ⟨pq, hpq, h⟩ := bind_ok_inv h
  obtain rfl : pq = (pdf, tdf) := (Except.ok.inj hpq).symm
  obtain ⟨⟨tbl, mat⟩, hp, h⟩ := bind_ok_inv h
  replace h : Except.bind
      (saveRes (build_output_json input.rfp_id tbl
        (process_tests input.tests tdf).1 mat
        (process_tests input.tests tdf).2))
      (fun _ => Except.ok (build_output_json input.rfp_id tbl
        (process_tests input.tests tdf).1 mat
        (process_tests input.tests tdf).2)) = Except.ok out := h
  obtain ⟨u, hs, h⟩ := bind_ok_inv h
  have hout : out = build_output_json input.rfp_id tbl
      (process_tests input.tests tdf).1 mat
      (process_tests input.tests tdf).2 := (Except.ok.inj h).symm
  have hkey : hasKey out "grand_total" = false := by rw [hout]; rfl
  have hget : pyGetD out "grand_total" (Val.num 0) = Val.num 0 := by
    rw [hout]; rfl
  refine ⟨hkey, hget, ⟨mat, (process_tests input.tests tdf).2, by
    rw [hout]; rfl⟩, ?_⟩
  intro s hpr
  unfold enhancedLead
  rw [dget_pySet, hpr, hget]

/-- Claim C10 witness: the statement applied to a run over an empty technical
table and empty catalogs, followed by a response-stage state carrying that
result. -/
theorem response_total_cost_zero_witness :
    hasKey (build_output_json (Val.str "R") [] [] 0 0) "grand_total" = false ∧
    pyGetD (build_output_json (Val.str "R") [] [] 0 0) "grand_total"
      (Val.num 0) = Val.num 0 ∧
    (∃ mat tc, dget (build_output_json (Val.str "R") [] [] 0 0) "summary" =
      Except.ok (Val.dict
        [("total_material_cost", Val.num mat),
         ("total_test_cost", Val.num tc),
         ("overall_project_cost", Val.num (mat + tc))])) ∧
    (∀ s : WorkflowState,
      s.pricing_result = build_output_json (Val.str "R") [] [] 0 0 →
      dget (enhancedLead s) "total_cost" = Except.ok (Val.num 0)) :=
  response_total_cost_zero [] [] (fun _ => Except.ok ())
    (PricingInput.mk (Val.str "R") [] [])
    (build_output_json (Val.str "R") [] [] 0 0) rfl

/-! ## Claim C1 -/

/-- Claim C1 (amended): when the final persistence write succeeds, every run
of the eight-stage pipeline completes the Package stage with `final_package`
assembled from the state (no stage exception reaches the caller), because
each of the seven preceding stages catches its fault at the stage boundary,
appends an entry naming the stage to `errors`, and writes its documented
fallback (empty scrape list; unfiltered pass-through; unsummarized
pass-through; first lead or empty dict; empty match list; fixed estimate
dict; literal failure marker).  The one exception the orchestrator does not
catch is a failure of the Package stage's own file write, which propagates
(see the counterexample). -/
theorem pipeline_isolates_stage_faults (ext : Ext)
    (hsave : ∀ p, ext.save p = Except.ok ()) :
    (∀ s, ∃ s2, runPipeline ext s = Except.ok s2 ∧
      s2.current_stage = "completed" ∧
      s2.final_package = buildFinalPackage ext s2) ∧
    (∀ s e, ext.scrape s.rfp_urls = Except.error e →
      scrape_rfps_node ext s = { s with
        current_stage := "scraping"
        all_rfps := []
        errors := s.errors ++ ["Scraping error: " ++ e] }) ∧
    (∀ s e, ext.filterDue s.all_rfps = Except.error e →
      filter_rfps_node ext s = { s with
        current_stage := "filtering"
        filtered_rfps := s.all_rfps
        errors := s.errors ++ ["Filtering error: " ++ e] }) ∧
    (∀ s e, ext.summarize s.filtered_rfps = Except.error e →
      summarize_rfps_node ext s = { s with
        current_stage := "summarizing"
        summarized_rfps := s.filtered_rfps
        errors := s.errors ++ ["Summarization error: " ++ e] }) ∧
    (∀ s, s.summarized_rfps = [] →
      select_best_rfp_node ext s = { s with
        current_stage := "selection"
        selected_rfp := []
        errors := s.errors ++
          ["Selection error: No RFPs available for selection"] }) ∧
    (∀ s e, s.summarized_rfps ≠ [] →
      ext.selectBest s.summarized_rfps = Except.error e →
      select_best_rfp_node ext s = { s with
        current_stage := "selection"
        selected_rfp := s.summarized_rfps.headD []
        errors := s.errors ++ ["Selection error: " ++ e] }) ∧
    (∀ s desc e,
      asStr (pyGetD s.selected_rfp "description" (Val.str "")) =
        Except.ok desc →
      searchLoop ext ((extract_product_requirements desc).take 5) =
        Except.error e →
      spec_match_node ext s = { s with
        current_stage := "spec_matching"
        product_requirements := extract_product_requirements desc
        spec_matches := []
        errors := s.errors ++ ["Spec matching error: " ++ e] }) ∧
    (∀ s e, ext.runPricing
        (buildPricingInput { s with current_stage := "pricing" }) =
        Except.error e →
      pricing_node ext s = { s with
        current_stage := "pricing"
        pricing_input := Option.some
          (buildPricingInput { s with current_stage := "pricing" })
        pricing_result := fallbackPricing
        errors := s.errors ++ ["Pricing error: " ++ e] }) ∧
    (∀ s e, ext.draft
        (enhancedLead { s with current_stage := "response_generation" }) =
        Except.error e →
      response_node ext s = { s with
        current_stage := "response_generation"
        draft_response := "Response generation failed"
        errors := s.errors ++ ["Response generation error: " ++ e] }) := by
  refine ⟨?_, ?_, ?_, ?_, ?_, ?_, ?_, ?_, ?_⟩
  · intro s
    unfold runPipeline package_output_node
    dsimp only
    rw [hsave]
    exact ⟨_, rfl, rfl, rfl⟩
  · intro s e h
    unfold scrape_rfps_node
    dsimp only
    rw [h]
  · intro s e h
    unfold filter_rfps_node
    dsimp only
    rw [h]
  · intro s e h
    unfold summarize_rfps_node
    dsimp only
    rw [h]
  · intro s h
    unfold select_best_rfp_node
    dsimp only
    rw [h]
    rfl
  · intro s e hne h
    have hemp : s.summarized_rfps.isEmpty = false := by
      cases hs : s.summarized_rfps
      · exact absurd hs hne
      · rfl
    unfold select_best_rfp_node
    dsimp only
    simp only [hemp, Bool.false_eq_true, if_false]
    rw [h]
  · intro s desc e hdesc hloop
    unfold spec_match_node
    dsimp only
    rw [hdesc]
    dsimp only
    rw [hloop]
  · intro s e h
    unfold pricing_node
    dsimp only
    rw [h]
  · intro s e h
    unfold response_node
    dsimp only
    rw [h]

/-- Claim C1 witness: the isolation statement applied to an `Ext` whose every
stage collaborator raises but whose persistence write succeeds. -/
theorem pipeline_isolates_stage_faults_witness :
    ∃ s2, runPipeline extAllFail initState = Except.ok s2 ∧
      s2.current_stage = "completed" ∧
      s2.final_package = buildFinalPackage extAllFail s2 :=
  (pipeline_isolates_stage_faults extAllFail (fun _ => rfl)).1 initState

unseal Rat.mul Rat.add in
/-- Claim C1 counterexample: `package_output_node` has no `try`/`except`, so
a failing write of `rfp_final_response.json` escapes the orchestrator and the
run raises instead of returning, refuting the claim that every stage fault is
caught at its stage boundary. -/
theorem pipeline_save_fault_ce :
    runPipeline extSaveFails initState = Except.error "disk full" := rfl

end Codeslayer
